import Mathlib

/-!
Verification development for a mental-health SMS chatbot.

The development shallowly embeds the decision logic of the bot:
the risk assessor (src/safety.js), the session/context store
(src/sessionManager.js, including its embedded memory module), the
command module (src/commands.js), the sentiment/topic helpers
(src/aiEngine.js) and the per-message orchestrator (handleIncomingMessage).

Strings are modelled as lists of characters (`Msg`); the JS builtins
`toLowerCase`/`toUpperCase` are modelled character-wise with the Unicode
simple case mappings, implemented on the basic latin range plus U+0131
(dotless i, whose simple uppercase is I — enough to exhibit that
uppercasing is not assessment-invariant over all strings); `includes` is
modelled as substring search, and `trim` with the common ASCII whitespace
characters.
Wall-clock data (timestamps, TTLs) and I/O transports are outside the
model; fallible external calls are passed in as explicit values.
-/

set_option maxRecDepth 8192

namespace MHBot

/-- A JS string, modelled as its list of characters. -/
abbrev Msg := List Char

/-- Characters of a Lean string literal, used to transcribe JS literals. -/
def str (s : String) : Msg := s.data

/-- Whitespace recognized by the model of `String.prototype.trim`. -/
def isWsChar (c : Char) : Bool :=
  c == ' ' || c == '\t' || c == '\n' || c == '\x0d'

/-- Model of `String.prototype.trim`: strip whitespace at both ends. -/
def jsTrim (m : Msg) : Msg :=
  (((m.dropWhile isWsChar).reverse.dropWhile isWsChar).reverse)

/-- The Unicode simple lowercase mapping as `String.prototype.toLowerCase`
applies it, character-wise, implemented on the basic latin range (the
letters A-Z; no character relevant to this development has any further
lowercase mapping). Characters without a covered mapping are unchanged. -/
def jsCharToLower (c : Char) : Char :=
  if 65 ≤ c.toNat ∧ c.toNat ≤ 90 then Char.ofNat (c.toNat + 32) else c

/-- The Unicode simple uppercase mapping as `String.prototype.toUpperCase`
applies it, character-wise, implemented on the basic latin range (the
letters a-z) and on U+0131 LATIN SMALL LETTER DOTLESS I, whose simple
uppercase mapping is the plain letter I. Characters without a covered
mapping are unchanged; JS full case conversion has further mappings
(among them one-to-many special casings) beyond these. -/
def jsCharToUpper (c : Char) : Char :=
  if 97 ≤ c.toNat ∧ c.toNat ≤ 122 then Char.ofNat (c.toNat - 32)
  else if c = 'ı' then 'I'
  else c

/-- Model of `String.prototype.toLowerCase`, character-wise. -/
def jsToLower (m : Msg) : Msg := m.map jsCharToLower

/-- Model of `String.prototype.toUpperCase`, character-wise. -/
def jsToUpper (m : Msg) : Msg := m.map jsCharToUpper

/-- Does `p` occur at the start of `l`? -/
def isPrefixChars : Msg → Msg → Bool
  | [], _ => true
  | _ :: _, [] => false
  | a :: as, b :: bs => a == b && isPrefixChars as bs

/-- Model of `String.prototype.includes`: does `needle` occur anywhere
inside `hay`? -/
def containsSub : Msg → Msg → Bool
  | [], needle => needle.isEmpty
  | c :: t, needle => isPrefixChars needle (c :: t) || containsSub t needle

/-- Model of `String.prototype.startsWith`. -/
def startsWithChars (m p : Msg) : Bool := isPrefixChars p m

/-- Lexicographic (character-code) strict order on strings: the order SQL
text comparison uses on the lowercase ASCII risk-level names. -/
def lexLt : Msg → Msg → Bool
  | [], [] => false
  | [], _ :: _ => true
  | _ :: _, [] => false
  | a :: as, b :: bs => a < b || (a == b && lexLt as bs)

/-! ## Risk levels (safety.js, RISK_LEVELS) -/

/-- The closed five-value risk enum of `RISK_LEVELS` in safety.js. -/
inductive RiskLevel where
  | none
  | low
  | medium
  | high
  | critical
deriving DecidableEq, Repr

/-- The integer rank used by `SessionManager.compareRiskLevels`. -/
def riskRank : RiskLevel → Nat
  | .none => 0
  | .low => 1
  | .medium => 2
  | .high => 3
  | .critical => 4

/-- The string name of each level, as stored in `RISK_LEVELS` and in the
durable `users.risk_level` column. -/
def riskName : RiskLevel → Msg
  | .none => str "none"
  | .low => str "low"
  | .medium => str "medium"
  | .high => str "high"
  | .critical => str "critical"

/-! ## Crisis keyword dictionaries (safety.js, CRISIS_KEYWORDS) -/

/-- `CRISIS_KEYWORDS.suicide`. -/
def suicideKeywords : List Msg :=
  [str "kill myself", str "end my life", str "want to die", str "suicide",
   str "suicidal", str "better off dead", str "no reason to live",
   str "ending it all", str "take my life", str "not worth living",
   str "end it all", str "rather be dead", str "wish i was dead",
   str "going to kill", str "planning to die", str "goodbye forever",
   str "final goodbye", str "cant go on", str "can\x27t take it anymore",
   str "overdose", str "hang myself", str "jump off", str "slit my wrist",
   str "end this pain", str "everyone would be better"]

/-- `CRISIS_KEYWORDS.selfHarm`. -/
def selfHarmKeywords : List Msg :=
  [str "cut myself", str "cutting", str "self harm", str "self-harm",
   str "hurt myself", str "burning myself", str "punish myself",
   str "deserve pain", str "harm myself", str "mutilate",
   str "starve myself", str "stop eating", str "purge",
   str "make myself bleed"]

/-- `CRISIS_KEYWORDS.abuse`. -/
def abuseKeywords : List Msg :=
  [str "being abused", str "molested", str "sexual abuse",
   str "physically abused", str "hit me", str "beats me",
   str "touches me inappropriately", str "rape", str "raped",
   str "assaulted", str "hurts me", str "scared of", str "threatens me",
   str "hitting me"]

/-- `CRISIS_KEYWORDS.substance`. -/
def substanceKeywords : List Msg :=
  [str "overdosing", str "too many pills", str "drinking to forget",
   str "getting high", str "need drugs", str "cant stop using",
   str "addicted", str "substance abuse", str "alcohol problem",
   str "drug problem", str "taking pills", str "using drugs"]

/-- `CRISIS_KEYWORDS.immediateRisk`. -/
def immediateRiskKeywords : List Msg :=
  [str "right now", str "tonight", str "today", str "have the",
   str "holding", str "in my hand", str "ready to", str "about to",
   str "going to do it", str "this is goodbye", str "saying goodbye",
   str "last message", str "final text", str "wont respond"]

/-! ## Crisis resources (safety.js, CRISIS_RESOURCES) -/

/-- One entry of `CRISIS_RESOURCES`. -/
structure CrisisResource where
  name : Msg
  number : Msg
  text : Option Msg
  description : Msg
deriving DecidableEq, Repr

/-- `CRISIS_RESOURCES.suicide`. -/
def suicideResource : CrisisResource :=
  { name := str "988 Suicide & Crisis Lifeline"
    number := str "988"
    text := some (str "Text \"HELLO\" to 741741")
    description := str "24/7 free and confidential support" }

/-- `CRISIS_RESOURCES.crisisText`. -/
def crisisTextResource : CrisisResource :=
  { name := str "Crisis Text Line"
    number := str "741741"
    text := some (str "Text \"HELLO\"")
    description := str "Free 24/7 crisis support via text" }

/-- `CRISIS_RESOURCES.trevorProject`. -/
def trevorProjectResource : CrisisResource :=
  { name := str "Trevor Project (LGBTQ+ Youth)"
    number := str "1-866-488-7386"
    text := some (str "Text \"START\" to 678-678")
    description := str "Suicide prevention for LGBTQ+ youth" }

/-- `CRISIS_RESOURCES.abuse`. -/
def abuseResource : CrisisResource :=
  { name := str "Childhelp National Abuse Hotline"
    number := str "1-800-422-4453"
    text := Option.none
    description := str "Support for abuse victims" }

/-- `CRISIS_RESOURCES.samhsa`. -/
def samhsaResource : CrisisResource :=
  { name := str "SAMHSA Helpline (Substance Abuse)"
    number := str "1-800-662-4357"
    text := Option.none
    description := str "Substance abuse and mental health services" }

/-- `CRISIS_RESOURCES.eating`. -/
def eatingResource : CrisisResource :=
  { name := str "NEDA Hotline (Eating Disorders)"
    number := str "1-800-931-2237"
    text := some (str "Text \"NEDA\" to 741741")
    description := str "Support for eating disorders" }

/-! ## assessRisk (safety.js)

The source computes everything from `lowerMessage = message.toLowerCase()`;
each local of `assessRisk` is embedded as a named function of the lowered
message so the theorems can speak about it. -/

/-- `suicideMatches` in `assessRisk` (filter over the lowered message). -/
def suicideMatches (l : Msg) : List Msg :=
  suicideKeywords.filter (fun k => containsSub l k)

/-- `selfHarmMatches` in `assessRisk`. -/
def selfHarmMatches (l : Msg) : List Msg :=
  selfHarmKeywords.filter (fun k => containsSub l k)

/-- `abuseMatches` in `assessRisk`. -/
def abuseMatches (l : Msg) : List Msg :=
  abuseKeywords.filter (fun k => containsSub l k)

/-- `substanceMatches` in `assessRisk`. -/
def substanceMatches (l : Msg) : List Msg :=
  substanceKeywords.filter (fun k => containsSub l k)

/-- `immediateMatches` in `assessRisk`. -/
def immediateMatches (l : Msg) : List Msg :=
  immediateRiskKeywords.filter (fun k => containsSub l k)

/-- `assessment.categories`: category names pushed in source order for each
category with at least one match. -/
def categoriesOf (l : Msg) : List Msg :=
  (if (suicideMatches l).length > 0 then [str "suicide"] else [])
    ++ (if (selfHarmMatches l).length > 0 then [str "selfHarm"] else [])
    ++ (if (abuseMatches l).length > 0 then [str "abuse"] else [])
    ++ (if (substanceMatches l).length > 0 then [str "substance"] else [])

/-- `assessment.keywords`: all matched keywords, pushed in source order
(the immediate-risk branch pushes no keywords). -/
def keywordsOf (l : Msg) : List Msg :=
  suicideMatches l ++ selfHarmMatches l ++ abuseMatches l ++ substanceMatches l

/-- `assessment.resources`: resource descriptors pushed in source order. -/
def resourcesOf (l : Msg) : List CrisisResource :=
  (if (suicideMatches l).length > 0 then [suicideResource, crisisTextResource] else [])
    ++ (if (selfHarmMatches l).length > 0 then [crisisTextResource] else [])
    ++ (if (abuseMatches l).length > 0 then [abuseResource] else [])
    ++ (if (substanceMatches l).length > 0 then [samhsaResource] else [])

/-- The four weighted contributions to `riskScore`
(suicide 10, selfHarm 7, abuse 8, substance 5). -/
def baseScoreOf (l : Msg) : Nat :=
  (suicideMatches l).length * 10 + (selfHarmMatches l).length * 7
    + (abuseMatches l).length * 8 + (substanceMatches l).length * 5

/-- The full `riskScore`: base score plus the immediate-risk amplification
(15 per match, added only when some weighted category already matched). -/
def riskScoreOf (l : Msg) : Nat :=
  baseScoreOf l
    + (if (immediateMatches l).length > 0 ∧ (categoriesOf l).length > 0
       then (immediateMatches l).length * 15 else 0)

/-- The threshold ladder of `assessRisk`
(0 none, below 10 low, below 20 medium, below 40 high, else critical). -/
def levelOfScore (s : Nat) : RiskLevel :=
  if s = 0 then .none
  else if s < 10 then .low
  else if s < 20 then .medium
  else if s < 40 then .high
  else .critical

/-- The result record of `assessRisk`. -/
structure Assessment where
  level : RiskLevel
  categories : List Msg
  keywords : List Msg
  requiresImmediateIntervention : Bool
  resources : List CrisisResource
deriving DecidableEq, Repr

/-- `assessRisk` on the already-lowered message. -/
def assessRiskCore (l : Msg) : Assessment :=
  { level := levelOfScore (riskScoreOf l)
    categories := categoriesOf l
    keywords := keywordsOf l
    requiresImmediateIntervention := levelOfScore (riskScoreOf l) == .critical
    resources := resourcesOf l }

/-- `assessRisk(message)` from safety.js. -/
def assessRisk (message : Msg) : Assessment :=
  assessRiskCore (jsToLower message)

/-- `requiresHumanEscalation` from safety.js. -/
def requiresHumanEscalation (a : Assessment) : Bool :=
  a.level == .critical || a.level == .high

/-- `requiresReview` from safety.js. -/
def requiresReview (a : Assessment) : Bool :=
  !(a.level == .none)

/-! ## generateCrisisResponse (safety.js)

The template texts are transcribed byte-for-byte from the source
(including the garbled bullet and emoji characters that appear there);
apostrophes and unusual characters are written with escape codes. -/

/-- The line rendered for one resource in the high/medium templates. -/
def renderResource (r : CrisisResource) : Msg :=
  str "\" " ++ r.name ++ str ": " ++ r.number
    ++ (match r.text with
        | some t => str " or " ++ t
        | Option.none => [])
    ++ str "\n"

/-- The critical-level template of `generateCrisisResponse`: the 988 /
741741 block is emitted only when "suicide" is among the categories. -/
def criticalResponse (categories : List Msg) : Msg :=
  str "I\x27m really concerned about you right now. Your safety is the most important thing.\n\nPlease reach out to someone who can help immediately:\n\n"
    ++ (if str "suicide" ∈ categories then
          str "=Þ Call 988 (Suicide & Crisis Lifeline)\n=¬ Text \"HELLO\" to 741741 (Crisis Text Line)\n\n"
        else [])
    ++ str "These are free, confidential, and available 24/7. Real people who care are waiting to help.\n\nIf you\x27re in immediate danger, please call 911 or go to your nearest emergency room.\n\nYou don\x27t have to go through this alone. Please reach out to one of these resources right now."

/-- The high-level template of `generateCrisisResponse`. -/
def highResponse (resources : List CrisisResource) : Msg :=
  str "I hear that you\x27re going through something really difficult right now, and I\x27m worried about you.\n\nPlease know that you don\x27t have to face this alone. There are people who want to help:\n\n"
    ++ (resources.map renderResource).flatten
    ++ str "\nThese services are free, confidential, and available 24/7. They\x27ve helped millions of people who felt just like you do now.\n\nIs there a trusted adult, counselor, or friend you could talk to?"

/-- The medium-level template of `generateCrisisResponse`. -/
def mediumResponse (categories : List Msg) (resources : List CrisisResource) : Msg :=
  str "Thank you for sharing this with me. What you\x27re feeling matters, and I want to make sure you have support.\n\n"
    ++ (if str "selfHarm" ∈ categories then
          str "Self-harm can be a sign that you\x27re dealing with really intense emotions. "
        else [])
    ++ str "Here are some resources that might help:\n\n"
    ++ (resources.map renderResource).flatten
    ++ str "\nHave you been able to talk to a counselor, therapist, or trusted adult about how you\x27re feeling?"

/-- The low-level template of `generateCrisisResponse`. -/
def lowResponse : Msg :=
  str "I\x27m here to listen and support you. If things ever feel overwhelming, remember that professional support is available:\n\n\" 988 for immediate crisis support\n\" Text \"HELLO\" to 741741 for Crisis Text Line\n\nWhat\x27s on your mind?"

/-- `generateCrisisResponse(assessment)` from safety.js; `Option.none`
models the `null` returned when no branch fires (level none). -/
def generateCrisisResponse (a : Assessment) : Option Msg :=
  if a.level = .critical then some (criticalResponse a.categories)
  else if a.level = .high then some (highResponse a.resources)
  else if a.level = .medium then some (mediumResponse a.categories a.resources)
  else if a.level = .low then some lowResponse
  else Option.none

/-! ## Session state (sessionManager.js) -/

/-- `session.flags`. -/
structure Flags where
  needsCheckIn : Bool
  inCrisis : Bool
  hasSeenResources : Bool
deriving DecidableEq, Repr

/-- One entry of `session.conversationContext` (the wall-clock `timestamp`
field is outside the model). -/
structure Exchange where
  user : Msg
  assistant : Msg
  riskLevel : RiskLevel
deriving DecidableEq, Repr

/-- The session record created by `createNewSession` and mutated by the
session manager (`phoneNumber`, `lastActivity` and the open-ended
`preferences` map are outside the model). -/
structure Session where
  conversationContext : List Exchange
  currentTopic : Option Msg
  mood : Option Msg
  riskLevel : RiskLevel
  messageCount : Nat
  isFirstTime : Bool
  flags : Flags
deriving DecidableEq, Repr

/-- `SessionManager.createNewSession`. -/
def createNewSession : Session :=
  { conversationContext := []
    currentTopic := Option.none
    mood := Option.none
    riskLevel := .none
    messageCount := 0
    isFirstTime := true
    flags := { needsCheckIn := false, inCrisis := false, hasSeenResources := false } }

/-- `SessionManager.compareRiskLevels`: difference of the integer ranks. -/
def compareRiskLevels (level1 level2 : RiskLevel) : Int :=
  (riskRank level1 : Int) - (riskRank level2 : Int)

/-- `SessionManager.updateContext` (successful path): append the exchange,
keep the last 10 (`slice(-10)`), bump `messageCount`, clear `isFirstTime`,
raise `riskLevel` when strictly higher, and set the crisis/resources
flags. -/
def updateContext (session : Session) (userMessage assistantResponse : Msg)
    (riskAssessment : Assessment) : Session :=
  let ctx := session.conversationContext
    ++ [{ user := userMessage, assistant := assistantResponse,
          riskLevel := riskAssessment.level }]
  let ctx := if ctx.length > 10 then ctx.drop (ctx.length - 10) else ctx
  { session with
    conversationContext := ctx
    messageCount := session.messageCount + 1
    isFirstTime := false
    riskLevel :=
      if compareRiskLevels riskAssessment.level session.riskLevel > 0
      then riskAssessment.level else session.riskLevel
    flags := { session.flags with
      inCrisis :=
        if riskAssessment.level = .critical ∨ riskAssessment.level = .high
        then true else session.flags.inCrisis
      hasSeenResources :=
        if riskAssessment.resources.length > 0
        then true else session.flags.hasSeenResources } }

/-! ## Tiered session read path (sessionManager.js getSession, with the
memory-module Redis tier) -/

/-- State of the fast cache tier as `memory.getSession` sees it: the client
may be unavailable, the read may throw (caught inside `memory.getSession`),
the key may be absent, or a session may be stored. -/
inductive RedisState where
  | unavailable
  | failed
  | missing
  | stored (s : Session)

/-- `memory.getSession`: every non-value outcome is absorbed and becomes
the empty object (modelled as `Option.none`); the function itself never
throws. -/
def memoryGetSession : RedisState → Option Session
  | .stored s => some s
  | _ => Option.none

/-- `SessionManager.getSession`: fast tier, then in-process fallback, then
a freshly synthesized session; `exn` models an error thrown anywhere inside
the `try` block, which the `catch` turns into a fresh session. The function
is total: no outcome throws to the caller. -/
def getSession (exn : Bool) (redis : RedisState) (fallback : Option Session) : Session :=
  if exn then createNewSession
  else
    match memoryGetSession redis with
    | some s => s
    | Option.none =>
      match fallback with
      | some s => s
      | Option.none => createNewSession

/-! ## Durable profile write (memory-module storeMessage) -/

/-- The risk-level update `storeMessage` issues on the `users` row:
`UPDATE users SET risk_level = $1 WHERE ... AND (risk_level = 'none' OR
$1 > risk_level)`, guarded by `riskLevel !== 'none'` in JS. The SQL `>`
compares the level names as text, i.e. lexicographically. -/
def storeMessageRiskLevelUpdate (stored incoming : Msg) : Msg :=
  if incoming ≠ str "none" ∧ (stored = str "none" ∨ lexLt stored incoming)
  then incoming else stored

/-! ## Commands module (commands.js) -/

/-- `isCommand(message)`. -/
def isCommand (message : Msg) : Bool :=
  let lowerMessage := jsToLower (jsTrim message)
  startsWithChars lowerMessage (str "/")
    || lowerMessage == str "help"
    || lowerMessage == str "resources"
    || lowerMessage == str "crisis"
    || lowerMessage == str "stop"

/-- `getHelpMessage`. -/
def helpMessage : Msg :=
  str "Available commands:\n\n\" HELP - Show this message\n\" RESOURCES - Crisis hotlines & support\n\" SAFETYPLAN - Create a safety plan\n\" TOPICS - What I can help with\n\" BREATHE - Breathing exercise\n\" GROUNDING - Grounding technique\n\" COPING - Coping strategies\n\" ABOUT - Learn about this service\n\" STOP - Pause messages\n\nOr just text me anything you want to talk about!"

/-- `getCrisisResourcesMessage`. -/
def crisisResourcesMessage : Msg :=
  str "<˜ CRISIS RESOURCES <˜\n\nIf you\x27re in immediate danger, call 911.\n\n24/7 Free & Confidential Support:\n\n=Þ 988 - Suicide & Crisis Lifeline\n=¬ Text \"HELLO\" to 741741 - Crisis Text Line\n< 1-866-488-7386 - Trevor Project (LGBTQ+ Youth)\n=h\n=i\n=g 1-800-422-4453 - Childhelp (Abuse Hotline)\n>à 1-800-662-4357 - SAMHSA (Substance Abuse)\n\nYou\x27re not alone. These people care and want to help."

/-- `getSafetyPlanPrompt` (safety.js). -/
def safetyPlanPrompt : Msg :=
  str "Let\x27s work on a safety plan together. This can help when things get tough:\n\n1. Warning Signs: What feelings or situations tell you things are getting hard?\n2. Coping Strategies: What helps you feel better? (music, walking, talking, etc.)\n3. People to Call: Who can you reach out to? (friend, family, counselor)\n4. Professional Help: 988 (Suicide & Crisis Lifeline), Text HELLO to 741741\n5. Safe Environment: Remove things that could be harmful\n\nWould you like to work on any of these together?"

/-- `getTopicsMessage`. -/
def topicsMessage : Msg :=
  str "I\x27m here to help with:\n\n\" Stress & anxiety\n\" Feeling sad or depressed\n\" Friend & relationship issues\n\" Family problems\n\" School pressure\n\" Self-esteem & confidence\n\" LGBTQ+ concerns\n\" Bullying\n\" Loneliness\n\" Or anything else on your mind\n\nWhat would you like to talk about?"

/-- `getAboutMessage`. -/
def aboutMessage : Msg :=
  str "I\x27m a mental health support chatbot created to help teenagers navigate life\x27s challenges.\n\nWhat I do:\n\" Provide a safe space to talk\n\" Offer emotional support\n\" Share coping strategies\n\" Connect you with professional resources\n\nWhat I don\x27t do:\n\" Diagnose conditions\n\" Prescribe medication\n\" Replace therapy or counseling\n\nEverything you share is confidential. I\x27m here to listen, support, and help you find the resources you need."

/-- `getStopMessage`. -/
def stopMessage : Msg :=
  str "I understand. I\x27ll pause sending you messages.\n\nIf you ever want to talk again, just text \"START\" or message me anytime.\n\nRemember: If you\x27re in crisis, help is always available at 988 or text \"HELLO\" to 741741.\n\nTake care of yourself. =™"

/-- `getResumeMessage`. -/
def resumeMessage : Msg :=
  str "Welcome back! I\x27m glad you\x27re here. =™\n\nHow have you been? Is there anything you\x27d like to talk about?"

/-- `getCheckInResponse`. -/
def checkInResponseMessage : Msg :=
  str "Thanks for checking in! How are you feeling right now?\n\nYou can rate your mood 1-10, or just tell me what\x27s going on."

/-- `getBreathingExercise`. -/
def breathingExerciseMessage : Msg :=
  str "Let\x27s do a quick breathing exercise together:\n\n1ã Breathe IN slowly for 4 seconds\n2ã HOLD for 4 seconds\n3ã Breathe OUT slowly for 4 seconds\n4ã HOLD for 4 seconds\n\nRepeat 3-5 times.\n\nHow are you feeling now?"

/-- `getGroundingExercise`. -/
def groundingExerciseMessage : Msg :=
  str "Let\x27s try the 5-4-3-2-1 grounding technique:\n\nName out loud:\n5 things you can SEE\n4 things you can TOUCH\n3 things you can HEAR\n2 things you can SMELL\n1 thing you can TASTE\n\nTake your time. This helps bring you back to the present moment.\n\nHow do you feel after trying this?"

/-- `getCopingStrategies`. -/
def copingStrategiesMessage : Msg :=
  str "Healthy ways to cope when things get tough:\n\n\" Talk to someone you trust\n\" Write in a journal\n\" Listen to music\n\" Go for a walk\n\" Do breathing exercises (text BREATHE)\n\" Pet an animal\n\" Take a shower\n\" Draw or be creative\n\" Watch something funny\n\" Practice self-compassion\n\nWhat usually helps you feel better?"

/-- The default reply of `handleCommand` for an unknown command. -/
def unknownCommandMessage : Msg :=
  str "I don\x27t recognize that command. Text \"help\" to see available commands."

/-- The labels of the `switch` in `handleCommand` (every recognized
command text). -/
def commandLabels : List Msg :=
  [str "help", str "resources", str "crisis", str "safetyplan",
   str "safety plan", str "safety", str "topics", str "about", str "stop",
   str "unsubscribe", str "start", str "resume", str "checkin",
   str "check in", str "check-in", str "breathe", str "breathing",
   str "grounding", str "ground", str "coping"]

/-- The command text `handleCommand` switches on: the trimmed lowercase
message, with one leading slash removed when present. -/
def commandTextOf (message : Msg) : Msg :=
  let lowerMessage := jsToLower (jsTrim message)
  if startsWithChars lowerMessage (str "/") then lowerMessage.drop 1
  else lowerMessage

/-- `handleCommand(message)`: the `switch` over the command text. -/
def handleCommand (message : Msg) : Msg :=
  let commandText := commandTextOf message
  if commandText = str "help" then helpMessage
  else if commandText = str "resources" ∨ commandText = str "crisis" then
    crisisResourcesMessage
  else if commandText = str "safetyplan" ∨ commandText = str "safety plan"
      ∨ commandText = str "safety" then safetyPlanPrompt
  else if commandText = str "topics" then topicsMessage
  else if commandText = str "about" then aboutMessage
  else if commandText = str "stop" ∨ commandText = str "unsubscribe" then
    stopMessage
  else if commandText = str "start" ∨ commandText = str "resume" then
    resumeMessage
  else if commandText = str "checkin" ∨ commandText = str "check in"
      ∨ commandText = str "check-in" then checkInResponseMessage
  else if commandText = str "breathe" ∨ commandText = str "breathing" then
    breathingExerciseMessage
  else if commandText = str "grounding" ∨ commandText = str "ground" then
    groundingExerciseMessage
  else if commandText = str "coping" then copingStrategiesMessage
  else unknownCommandMessage

/-! ## Sentiment and topic helpers (aiEngine.js) -/

/-- The positive word list of `analyzeSentiment`. -/
def positiveWords : List Msg :=
  [str "good", str "great", str "happy", str "better", str "okay",
   str "fine", str "thanks", str "grateful"]

/-- The negative word list of `analyzeSentiment`. -/
def negativeWords : List Msg :=
  [str "bad", str "sad", str "terrible", str "awful", str "horrible",
   str "depressed", str "anxious", str "worried"]

/-- `analyzeSentiment(message)`. -/
def analyzeSentiment (message : Msg) : Msg :=
  let lowerMessage := jsToLower message
  let positiveCount := (positiveWords.filter (fun w => containsSub lowerMessage w)).length
  let negativeCount := (negativeWords.filter (fun w => containsSub lowerMessage w)).length
  if negativeCount > positiveCount then str "negative"
  else if positiveCount > negativeCount then str "positive"
  else str "neutral"

/-- The topic dictionary of `extractTopic`, in source iteration order. -/
def topicTable : List (Msg × List Msg) :=
  [(str "school", [str "school", str "class", str "homework", str "teacher",
      str "grade", str "test", str "exam", str "college"]),
   (str "family", [str "mom", str "dad", str "parent", str "family",
      str "brother", str "sister", str "sibling", str "home"]),
   (str "friends", [str "friend", str "friendship", str "peer",
      str "classmate", str "people"]),
   (str "relationship", [str "boyfriend", str "girlfriend", str "dating",
      str "relationship", str "crush", str "love"]),
   (str "anxiety", [str "anxious", str "anxiety", str "worried",
      str "nervous", str "panic", str "stress", str "overwhelmed"]),
   (str "depression", [str "depressed", str "sad", str "depression",
      str "hopeless", str "empty", str "numb"]),
   (str "selfEsteem", [str "ugly", str "fat", str "worthless",
      str "hate myself", str "insecure", str "confidence"]),
   (str "bullying", [str "bully", str "bullying", str "teasing",
      str "mean", str "picking on"]),
   (str "lgbtq", [str "gay", str "lesbian", str "trans", str "queer",
      str "lgbtq", str "coming out", str "sexuality", str "gender"])]

/-- `extractTopic(message)`: first topic whose keyword list has a match. -/
def extractTopic (message : Msg) : Msg :=
  let lowerMessage := jsToLower message
  match topicTable.find? (fun t => t.2.any (fun k => containsSub lowerMessage k)) with
  | some t => t.1
  | Option.none => str "general"

/-! ## Per-message orchestrator (handleIncomingMessage) -/

/-- The value returned by `aiEngine.generateResponse`: on failure `success`
is false and `message` already holds the fixed fallback text. -/
structure AIResult where
  success : Bool
  message : Msg
deriving DecidableEq, Repr

/-- Direction of a stored conversation row. -/
inductive Direction where
  | incoming
  | outgoing
deriving DecidableEq, Repr

/-- One row written through `memory.storeMessage`. -/
structure StoredMessage where
  message : Msg
  direction : Direction
  riskLevel : RiskLevel
  categories : List Msg
deriving DecidableEq, Repr

/-- One row written through `memory.storeCrisisEvent`. -/
structure CrisisEvent where
  riskLevel : RiskLevel
  categories : List Msg
  messagePreview : Msg
deriving DecidableEq, Repr

/-- The `type` field of the orchestrator result. -/
inductive ResponseType where
  | command
  | conversation
deriving DecidableEq, Repr

/-- The result object `handleIncomingMessage` returns to its caller
(`riskLevel` is absent on the command path). -/
structure HandleResult where
  success : Bool
  response : Msg
  riskLevel : Option RiskLevel
  resultType : ResponseType
deriving DecidableEq, Repr

/-- Everything observable about one `handleIncomingMessage` run: outbound
sends and durable writes in order, the returned result, and the session
left behind. -/
structure Outcome where
  result : HandleResult
  sent : List Msg
  crisisEvents : List CrisisEvent
  stored : List StoredMessage
  session : Session
deriving DecidableEq, Repr

/-- `handleIncomingMessage(phoneNumber, messageText)` from the message
handler (its non-throwing path), as a pure function of the inbound text,
the AI-engine outcome and the session the store currently holds. The
command branch returns before `assessRisk` is ever consulted, exactly as
the source returns early. -/
def handleIncomingMessage (messageText : Msg) (ai : AIResult)
    (session : Session) : Outcome :=
  if isCommand messageText then
    let commandResponse := handleCommand messageText
    { result := { success := true, response := commandResponse,
                  riskLevel := Option.none, resultType := .command }
      sent := [commandResponse]
      crisisEvents := []
      stored := [{ message := messageText, direction := .incoming,
                   riskLevel := .none, categories := [] },
                 { message := commandResponse, direction := .outgoing,
                   riskLevel := .none, categories := [] }]
      session := session }
  else
    let riskAssessment := assessRisk messageText
    let crisisEvents :=
      if requiresHumanEscalation riskAssessment then
        [{ riskLevel := riskAssessment.level,
           categories := riskAssessment.categories,
           messagePreview := messageText.take 100 : CrisisEvent }]
      else []
    if riskAssessment.level = .critical ∨ riskAssessment.level = .high then
      let crisisResponse := (generateCrisisResponse riskAssessment).getD []
      let sent := [crisisResponse] ++ (if ai.success then [ai.message] else [])
      let stored :=
        [{ message := messageText, direction := .incoming,
           riskLevel := riskAssessment.level,
           categories := riskAssessment.categories : StoredMessage },
         { message := crisisResponse, direction := .outgoing,
           riskLevel := riskAssessment.level,
           categories := riskAssessment.categories }]
        ++ (if ai.success then
              [{ message := ai.message, direction := .outgoing,
                 riskLevel := riskAssessment.level,
                 categories := riskAssessment.categories : StoredMessage }]
            else [])
      let assistantTurn :=
        crisisResponse ++ str "\n\n" ++ (if ai.success then ai.message else [])
      { result := { success := true, response := crisisResponse,
                    riskLevel := some riskAssessment.level,
                    resultType := .conversation }
        sent := sent
        crisisEvents := crisisEvents
        stored := stored
        session := updateContext session messageText assistantTurn riskAssessment }
    else
      let response := ai.message
      let sessionAfter := updateContext session messageText response riskAssessment
      let sessionAfter :=
        { sessionAfter with mood := some (analyzeSentiment messageText),
                            currentTopic := some (extractTopic messageText) }
      { result := { success := true, response := response,
                    riskLevel := some riskAssessment.level,
                    resultType := .conversation }
        sent := [response]
        crisisEvents := crisisEvents
        stored := [{ message := messageText, direction := .incoming,
                     riskLevel := riskAssessment.level,
                     categories := riskAssessment.categories },
                   { message := response, direction := .outgoing,
                     riskLevel := riskAssessment.level,
                     categories := riskAssessment.categories }]
        session := sessionAfter }

/-! ## Helpers for stating the properties -/

/-- An assessment record carrying a given level, used to drive
`updateContext` in the session-level properties. -/
def mkAssessment (l : RiskLevel) : Assessment :=
  { level := l, categories := [], keywords := [],
    requiresImmediateIntervention := false, resources := [] }

/-- A sequence of `updateContext` calls, one per listed
(user, assistant, assessment) triple. -/
def applyExchanges (s : Session) (xs : List (Msg × Msg × Assessment)) : Session :=
  xs.foldl (fun t x => updateContext t x.1 x.2.1 x.2.2) s

/-- The context entry one `updateContext` call appends for a triple. -/
def mkExchange (x : Msg × Msg × Assessment) : Exchange :=
  { user := x.1, assistant := x.2.1, riskLevel := x.2.2.level }

/-- The end-to-end input of the spec scenario. -/
def kmMsg : Msg := str "I want to kill myself"

/-- A concrete successful AI reply (it does not mention any hotline). -/
def plainAiReply : AIResult :=
  { success := true, message := str "Thank you for telling me. I am here with you." }

/-- A message matching six abuse keywords and nothing else: its score is
48, so its level is critical with categories exactly ["abuse"]. -/
def abuseOnlyMsg : Msg :=
  str "he hit me and beats me, i was raped and assaulted, he threatens me"

/-- The critical suicide assessment the repository test suite itself feeds
to `generateCrisisResponse`. -/
def criticalSuicideAssessment : Assessment :=
  { level := .critical, categories := [str "suicide"], keywords := [],
    requiresImmediateIntervention := true, resources := [] }

/-- A message containing U+0131 (dotless i) in place of the i of "kill":
it matches no keyword, but its uppercase is the plain "KILL MYSELF". -/
def dotlessIMsg : Msg := str "kıll myself"

/-! ## Theorems -/

/-- C1: the durable risk_level update of storeMessage compares level names
as SQL text, not by ordinal rank. A stored "critical" is overwritten by an
assessed "high" (a strict ordinal downgrade, since "high" > "critical" as
text), and a stored "low" is NOT replaced by an assessed "high" (a strict
ordinal upgrade, since "high" < "low" as text). Both directions of the
claimed high-water-mark behaviour fail on the code. -/
theorem c1_storeMessage_risk_update_is_lexicographic :
    storeMessageRiskLevelUpdate (riskName .critical) (riskName .high) = riskName .high
    ∧ riskRank .high < riskRank .critical
    ∧ storeMessageRiskLevelUpdate (riskName .low) (riskName .high) = riskName .low
    ∧ riskRank .low < riskRank .high
    ∧ storeMessageRiskLevelUpdate (riskName .none) (riskName .low) = riskName .low := by
  decide

/-- C2 (counterexample): on the inbound message "I want to kill myself"
the assessor matches exactly one suicide keyword, scoring 10, so the level
is "medium", not "critical"; the orchestrator therefore persists no
CrisisEvent, sends only the AI reply (which need not contain "988"), and
leaves flags.inCrisis = false on a fresh session. -/
theorem c2_counterexample_level_is_medium :
    (assessRisk kmMsg).level = RiskLevel.medium
    ∧ ¬ (assessRisk kmMsg).level = RiskLevel.critical
    ∧ (handleIncomingMessage kmMsg plainAiReply createNewSession).crisisEvents = []
    ∧ (handleIncomingMessage kmMsg plainAiReply createNewSession).session.flags.inCrisis = false
    ∧ (handleIncomingMessage kmMsg plainAiReply createNewSession).sent.all
        (fun t => containsSub t (str "988") = false) := by
  decide

/-- C3 (counterexample): an assessment can be critical without the suicide
category (six abuse keywords score 48); for it, generateCrisisResponse
returns a text that does not contain "988" anywhere. -/
theorem c3_counterexample_critical_without_988 :
    (assessRisk abuseOnlyMsg).level = RiskLevel.critical
    ∧ (generateCrisisResponse (assessRisk abuseOnlyMsg)).isSome = true
    ∧ containsSub ((generateCrisisResponse (assessRisk abuseOnlyMsg)).getD [])
        (str "988") = false := by
  decide

/-- C3 (amended): for every assessment whose level is critical and whose
categories include "suicide", generateCrisisResponse returns a non-null
text containing the literal substring "988". -/
theorem c3_critical_suicide_response_contains_988 (a : Assessment)
    (h1 : a.level = RiskLevel.critical) (h2 : str "suicide" ∈ a.categories) :
    ∃ t, generateCrisisResponse a = some t ∧ containsSub t (str "988") = true := by
  refine ⟨criticalResponse a.categories, ?_, ?_⟩
  · simp [generateCrisisResponse, h1]
  · unfold criticalResponse
    rw [if_pos h2]
    decide

/-- Witness for C3 (amended), at the critical suicide assessment the
repository test suite itself uses. -/
theorem c3_critical_suicide_response_contains_988_witness :
    ∃ t, generateCrisisResponse criticalSuicideAssessment = some t
      ∧ containsSub t (str "988") = true :=
  c3_critical_suicide_response_contains_988 criticalSuicideAssessment rfl
    (by decide)

/-- C2 (amended): on "I want to kill myself" the assessor reports the
suicide category at level "medium", so the orchestrator takes the normal
conversation branch for every AI outcome and prior session: it persists no
CrisisEvent, sends exactly the AI-engine reply, reports riskLevel medium
with type conversation, and leaves flags.inCrisis as it was. -/
theorem c2_kill_myself_takes_normal_branch (ai : AIResult) (s : Session) :
    str "suicide" ∈ (assessRisk kmMsg).categories
    ∧ (assessRisk kmMsg).level = RiskLevel.medium
    ∧ (handleIncomingMessage kmMsg ai s).crisisEvents = []
    ∧ (handleIncomingMessage kmMsg ai s).sent = [ai.message]
    ∧ (handleIncomingMessage kmMsg ai s).result.riskLevel = some RiskLevel.medium
    ∧ (handleIncomingMessage kmMsg ai s).result.resultType = ResponseType.conversation
    ∧ (handleIncomingMessage kmMsg ai s).session.flags.inCrisis = s.flags.inCrisis := by
  have hcmd : isCommand kmMsg = false := by decide
  have hlvl : (assessRisk kmMsg).level = RiskLevel.medium := by decide
  have hesc : requiresHumanEscalation (assessRisk kmMsg) = false := by decide
  refine ⟨by decide, hlvl, ?_, ?_, ?_, ?_, ?_⟩ <;>
    simp [handleIncomingMessage, hcmd, hlvl, hesc, updateContext]

/-- C4: immediate-risk keywords never stand alone. When a message matches
at least one immediateRisk keyword but none of the four weighted
categories, assessRisk returns level none; and whenever a weighted
category matched, the cumulative score is the weighted base plus 15 per
immediateRisk match. -/
theorem c4_immediate_risk_never_stands_alone (m : Msg) :
    (1 ≤ (immediateMatches (jsToLower m)).length →
      (suicideMatches (jsToLower m)).length = 0 →
      (selfHarmMatches (jsToLower m)).length = 0 →
      (abuseMatches (jsToLower m)).length = 0 →
      (substanceMatches (jsToLower m)).length = 0 →
      (assessRisk m).level = RiskLevel.none)
    ∧ (0 < (assessRisk m).categories.length →
      riskScoreOf (jsToLower m)
        = baseScoreOf (jsToLower m) + (immediateMatches (jsToLower m)).length * 15) := by
  constructor
  · intro _ h1 h2 h3 h4
    simp [assessRisk, assessRiskCore, riskScoreOf, baseScoreOf, categoriesOf,
      levelOfScore, h1, h2, h3, h4]
  · intro h
    have hcat : 0 < (categoriesOf (jsToLower m)).length := h
    by_cases him : 0 < (immediateMatches (jsToLower m)).length
    · unfold riskScoreOf
      rw [if_pos ⟨him, hcat⟩]
    · have h0 : (immediateMatches (jsToLower m)).length = 0 := by omega
      unfold riskScoreOf
      rw [h0]
      simp

/-- Witness for C4: "right now" matches only an immediateRisk keyword and
is assessed none; "i want to kill myself right now" has a matched
category, so its score decomposes as base + 15 per immediate match. -/
theorem c4_immediate_risk_never_stands_alone_witness :
    (assessRisk (str "right now")).level = RiskLevel.none
    ∧ riskScoreOf (jsToLower (str "i want to kill myself right now"))
        = baseScoreOf (jsToLower (str "i want to kill myself right now"))
          + (immediateMatches (jsToLower (str "i want to kill myself right now"))).length * 15 :=
  ⟨(c4_immediate_risk_never_stands_alone (str "right now")).1
      (by decide) (by decide) (by decide) (by decide) (by decide),
   (c4_immediate_risk_never_stands_alone (str "i want to kill myself right now")).2
      (by decide)⟩

/-- C5: a message matching at least two weighted categories and at least
one immediate-risk keyword is always assessed high or critical: the two
smallest category weights already contribute 12 and the immediate-risk
amplification at least 15, so the score is at least 27, past the high
threshold of 20. -/
theorem c5_two_categories_plus_immediate_is_high_or_critical (m : Msg)
    (h1 : 2 ≤ (assessRisk m).categories.length)
    (h2 : 1 ≤ (immediateMatches (jsToLower m)).length) :
    (assessRisk m).level = RiskLevel.high ∨ (assessRisk m).level = RiskLevel.critical := by
  have hcat : 2 ≤ (categoriesOf (jsToLower m)).length := h1
  have hbase : 10 ≤ baseScoreOf (jsToLower m) := by
    by_cases hs : (suicideMatches (jsToLower m)).length > 0 <;>
    by_cases hh : (selfHarmMatches (jsToLower m)).length > 0 <;>
    by_cases ha : (abuseMatches (jsToLower m)).length > 0 <;>
    by_cases hb : (substanceMatches (jsToLower m)).length > 0 <;>
      simp [categoriesOf, hs, hh, ha, hb] at hcat <;>
      simp [baseScoreOf] <;> omega
  have hscore : 25 ≤ riskScoreOf (jsToLower m) := by
    unfold riskScoreOf
    rw [if_pos ⟨by omega, by omega⟩]
    have : 15 ≤ (immediateMatches (jsToLower m)).length * 15 := by omega
    omega
  show levelOfScore (riskScoreOf (jsToLower m)) = RiskLevel.high
    ∨ levelOfScore (riskScoreOf (jsToLower m)) = RiskLevel.critical
  unfold levelOfScore
  split_ifs <;> first | omega | (left; rfl) | (right; rfl)

/-- Witness for C5: "i cut myself and i am addicted right now" matches the
selfHarm and substance categories plus one immediate-risk keyword. -/
theorem c5_two_categories_plus_immediate_witness :
    (assessRisk (str "i cut myself and i am addicted right now")).level = RiskLevel.high
    ∨ (assessRisk (str "i cut myself and i am addicted right now")).level = RiskLevel.critical :=
  c5_two_categories_plus_immediate_is_high_or_critical
    (str "i cut myself and i am addicted right now") (by decide) (by decide)

/-- C6: updateContext never lowers the session risk level (the comparison
is by integer rank), and concretely a low/high/low sequence of calls on a
fresh session leaves the level at high after the second and third call. -/
theorem c6_session_risk_level_non_decreasing :
    (∀ (s : Session) (u a : Msg) (r : Assessment),
      riskRank s.riskLevel ≤ riskRank (updateContext s u a r).riskLevel)
    ∧ ∀ u1 a1 u2 a2 u3 a3 : Msg,
      (updateContext (updateContext createNewSession u1 a1 (mkAssessment .low))
        u2 a2 (mkAssessment .high)).riskLevel = RiskLevel.high
      ∧ (updateContext (updateContext (updateContext createNewSession u1 a1
          (mkAssessment .low)) u2 a2 (mkAssessment .high)) u3 a3
          (mkAssessment .low)).riskLevel = RiskLevel.high := by
  constructor
  · intro s u a r
    show riskRank s.riskLevel
      ≤ riskRank (if compareRiskLevels r.level s.riskLevel > 0
                  then r.level else s.riskLevel)
    split_ifs with h
    · unfold compareRiskLevels at h
      omega
    · exact Nat.le_refl _
  · intro u1 a1 u2 a2 u3 a3
    exact ⟨rfl, rfl⟩

/-- The conversation context after a run of updateContext calls, starting
from a context within capacity: all exchanges ever appended, with all but
the 10 most recent dropped. -/
theorem applyExchanges_conversationContext (xs : List (Msg × Msg × Assessment)) :
    ∀ s : Session, s.conversationContext.length ≤ 10 →
    (applyExchanges s xs).conversationContext
      = (s.conversationContext ++ xs.map mkExchange).drop
          (s.conversationContext.length + xs.length - 10) := by
  induction xs with
  | nil =>
    intro s h
    simp only [applyExchanges, List.foldl_nil, List.map_nil, List.append_nil,
      List.length_nil, Nat.add_zero]
    rw [Nat.sub_eq_zero_of_le h, List.drop_zero]
  | cons x rest ih =>
    intro s h
    have hstep : (updateContext s x.1 x.2.1 x.2.2).conversationContext
        = if (s.conversationContext ++ [mkExchange x]).length > 10
          then (s.conversationContext ++ [mkExchange x]).drop
            ((s.conversationContext ++ [mkExchange x]).length - 10)
          else s.conversationContext ++ [mkExchange x] := rfl
    have htail : applyExchanges s (x :: rest)
        = applyExchanges (updateContext s x.1 x.2.1 x.2.2) rest := rfl
    rw [htail]
    by_cases hl : s.conversationContext.length + 1 > 10
    · have hten : s.conversationContext.length = 10 := by omega
      have hctx : (updateContext s x.1 x.2.1 x.2.2).conversationContext
          = (s.conversationContext ++ [mkExchange x]).drop 1 := by
        rw [hstep, if_pos (by simp only [List.length_append, List.length_singleton]; omega)]
        simp [hten]
      have hlen : (updateContext s x.1 x.2.1 x.2.2).conversationContext.length ≤ 10 := by
        rw [hctx]
        simp only [List.length_drop, List.length_append, List.length_singleton]
        omega
      rw [ih _ hlen, hctx]
      rw [show (((s.conversationContext ++ [mkExchange x]).drop 1).length) = 10 from by
        simp [hten]]
      rw [← List.drop_append_of_le_length
        (show 1 ≤ (s.conversationContext ++ [mkExchange x]).length from by simp)]
      rw [List.drop_drop]
      simp only [List.map_cons, List.append_assoc, List.singleton_append, List.length_cons]
      congr 1
      omega
    · have hctx : (updateContext s x.1 x.2.1 x.2.2).conversationContext
          = s.conversationContext ++ [mkExchange x] := by
        rw [hstep,
          if_neg (by simp only [List.length_append, List.length_singleton]; omega)]
      have hlen : (updateContext s x.1 x.2.1 x.2.2).conversationContext.length ≤ 10 := by
        rw [hctx]
        simp only [List.length_append, List.length_singleton]
        omega
      rw [ih _ hlen, hctx]
      simp only [List.length_append, List.length_singleton, List.length_nil,
        List.map_cons, List.length_cons, List.append_assoc, List.singleton_append]
      congr 1
      omega

/-- C7: the conversation context never exceeds 10 entries after any
updateContext call, and 15 sequential updateContext calls on a fresh
session leave exactly the 10 most recent exchanges, in order, the 5
oldest having been evicted first. -/
theorem c7_context_caps_at_ten_fifo :
    (∀ (s : Session) (u a : Msg) (r : Assessment),
      (updateContext s u a r).conversationContext.length ≤ 10)
    ∧ ∀ xs : List (Msg × Msg × Assessment), xs.length = 15 →
      (applyExchanges createNewSession xs).conversationContext
          = (xs.map mkExchange).drop 5
      ∧ (applyExchanges createNewSession xs).conversationContext.length = 10 := by
  constructor
  · intro s u a r
    have hstep : (updateContext s u a r).conversationContext
        = if (s.conversationContext ++ [Exchange.mk u a r.level]).length > 10
          then (s.conversationContext ++ [Exchange.mk u a r.level]).drop
            ((s.conversationContext ++ [Exchange.mk u a r.level]).length - 10)
          else s.conversationContext ++ [Exchange.mk u a r.level] := rfl
    rw [hstep]
    split_ifs with hgt
    · simp only [List.length_drop, List.length_append, List.length_singleton]
      omega
    · simp only [List.length_append, List.length_singleton] at hgt ⊢
      omega
  · intro xs hxs
    have h := applyExchanges_conversationContext xs createNewSession
      (by simp [createNewSession])
    have hc : createNewSession.conversationContext = ([] : List Exchange) := rfl
    rw [hc] at h
    have h5 : ([] : List Exchange).length + xs.length - 10 = 5 := by
      simp [hxs]
    rw [h5, List.nil_append] at h
    refine ⟨h, ?_⟩
    rw [h]
    simp [hxs]

/-- Witness for C7: fifteen identical empty exchanges. -/
theorem c7_context_caps_at_ten_fifo_witness :
    (applyExchanges createNewSession
        (List.replicate 15 (([], [], mkAssessment .none) : Msg × Msg × Assessment))).conversationContext
      = ((List.replicate 15 (([], [], mkAssessment .none) : Msg × Msg × Assessment)).map
          mkExchange).drop 5
    ∧ (applyExchanges createNewSession
        (List.replicate 15 (([], [], mkAssessment .none) : Msg × Msg × Assessment))).conversationContext.length
      = 10 :=
  c7_context_caps_at_ten_fifo.2 _ (by simp)

/-- C8: getSession is total (it returns a session in every tier
configuration rather than throwing); for an identifier absent from both
the fast tier and the in-process fallback it returns the synthesized
default session (isFirstTime, riskLevel none, zero messages, empty
context), and any error reaching its try/catch also yields that default. -/
theorem c8_getSession_never_throws_defaults (redis : RedisState)
    (fallback : Option Session)
    (hmiss : memoryGetSession redis = Option.none) :
    ((getSession false redis Option.none).isFirstTime = true
      ∧ (getSession false redis Option.none).riskLevel = RiskLevel.none
      ∧ (getSession false redis Option.none).messageCount = 0
      ∧ (getSession false redis Option.none).conversationContext = [])
    ∧ ((getSession true redis fallback).isFirstTime = true
      ∧ (getSession true redis fallback).riskLevel = RiskLevel.none
      ∧ (getSession true redis fallback).messageCount = 0
      ∧ (getSession true redis fallback).conversationContext = []) := by
  constructor
  · rw [show getSession false redis Option.none
        = match memoryGetSession redis with
          | some s => s
          | Option.none => createNewSession from rfl]
    rw [hmiss]
    exact ⟨rfl, rfl, rfl, rfl⟩
  · exact ⟨rfl, rfl, rfl, rfl⟩

/-- Witness for C8: a never-seen identifier (fast tier has no entry, no
fallback entry). -/
theorem c8_getSession_never_throws_defaults_witness :
    ((getSession false RedisState.missing Option.none).isFirstTime = true
      ∧ (getSession false RedisState.missing Option.none).riskLevel = RiskLevel.none
      ∧ (getSession false RedisState.missing Option.none).messageCount = 0
      ∧ (getSession false RedisState.missing Option.none).conversationContext = [])
    ∧ ((getSession true RedisState.missing Option.none).isFirstTime = true
      ∧ (getSession true RedisState.missing Option.none).riskLevel = RiskLevel.none
      ∧ (getSession true RedisState.missing Option.none).messageCount = 0
      ∧ (getSession true RedisState.missing Option.none).conversationContext = []) :=
  c8_getSession_never_throws_defaults RedisState.missing Option.none rfl

/-- C9 (counterexample): assessRisk is not uppercase-invariant over all
strings. "kıll myself" (dotless i) matches no keyword and assesses to
level none with no categories, but its uppercase is "KILL MYSELF" (the
simple uppercase of U+0131 is I), which assesses to level medium with
category suicide. -/
theorem c9_counterexample_dotless_i_uppercase_changes_level :
    jsToUpper dotlessIMsg = str "KILL MYSELF"
    ∧ (assessRisk dotlessIMsg).level = RiskLevel.none
    ∧ (assessRisk dotlessIMsg).categories = []
    ∧ (assessRisk (jsToUpper dotlessIMsg)).level = RiskLevel.medium
    ∧ (assessRisk (jsToUpper dotlessIMsg)).categories = [str "suicide"]
    ∧ ¬ (assessRisk (jsToUpper dotlessIMsg)).level = (assessRisk dotlessIMsg).level := by
  decide

/-- Lowering after uppering agrees with lowering on every basic latin
character. -/
theorem jsChar_lower_upper_basicLatin (c : Char) (h : c.toNat < 128) :
    jsCharToLower (jsCharToUpper c) = jsCharToLower c := by
  have hlow : ∀ d : Char, jsCharToLower d
      = if 65 ≤ d.toNat ∧ d.toNat ≤ 90 then Char.ofNat (d.toNat + 32) else d :=
    fun d => rfl
  by_cases hU : 97 ≤ c.toNat ∧ c.toNat ≤ 122
  · have hv : (c.toNat - 32).isValidChar := Or.inl (by omega)
    have ht : (Char.ofNat (c.toNat - 32)).toNat = c.toNat - 32 := by
      rw [Char.ofNat, dif_pos hv]
      rfl
    have hup : jsCharToUpper c = Char.ofNat (c.toNat - 32) := by
      unfold jsCharToUpper
      rw [if_pos hU]
    rw [hup, hlow, hlow, ht]
    rw [if_pos ⟨by omega, by omega⟩,
      if_neg (by omega : ¬(65 ≤ c.toNat ∧ c.toNat ≤ 90))]
    rw [show c.toNat - 32 + 32 = c.toNat from by omega, Char.ofNat_toNat]
  · have hni : ¬ c = 'ı' := fun he => absurd (he ▸ h) (by decide)
    have hup : jsCharToUpper c = c := by
      unfold jsCharToUpper
      rw [if_neg hU, if_neg hni]
    rw [hup]

/-- Lowering a basic latin string is invariant under first uppering it. -/
theorem jsToLower_jsToUpper_basicLatin (m : Msg) (h : ∀ c ∈ m, c.toNat < 128) :
    jsToLower (jsToUpper m) = jsToLower m := by
  unfold jsToLower jsToUpper
  rw [List.map_map]
  exact List.map_congr_left (fun c hc => jsChar_lower_upper_basicLatin c (h c hc))

/-- C9 (amended): assessRisk is invariant under uppercasing for every
basic-latin (ASCII) string — level and categories agree, because the
assessor only looks at the lowercased message and, on basic latin,
lowering after uppering equals lowering. -/
theorem c9_assessRisk_case_insensitive_ascii (m : Msg)
    (h : ∀ c ∈ m, c.toNat < 128) :
    (assessRisk (jsToUpper m)).level = (assessRisk m).level
    ∧ (assessRisk (jsToUpper m)).categories = (assessRisk m).categories := by
  unfold assessRisk
  rw [jsToLower_jsToUpper_basicLatin m h]
  exact ⟨rfl, rfl⟩

/-- Witness for C9 (amended), at the basic-latin scenario message. -/
theorem c9_assessRisk_case_insensitive_ascii_witness :
    (assessRisk (jsToUpper (str "I want to kill myself"))).level
        = (assessRisk (str "I want to kill myself")).level
    ∧ (assessRisk (jsToUpper (str "I want to kill myself"))).categories
        = (assessRisk (str "I want to kill myself")).categories :=
  c9_assessRisk_case_insensitive_ascii (str "I want to kill myself") (by decide)

/-- C10: a message whose trimmed lowercased form starts with "/" or equals
one of "help", "resources", "crisis", "stop" is handled on the command
path: the result has type command and no risk level, no CrisisEvent is
persisted (assessRisk is never consulted: the command branch of the
embedding returns first, as the source returns early), and an unrecognized
slash command receives the fixed unknown-command reply. -/
theorem c10_commands_bypass_risk_assessment (m : Msg) (ai : AIResult) (s : Session)
    (h : startsWithChars (jsToLower (jsTrim m)) (str "/") = true
      ∨ jsToLower (jsTrim m) = str "help"
      ∨ jsToLower (jsTrim m) = str "resources"
      ∨ jsToLower (jsTrim m) = str "crisis"
      ∨ jsToLower (jsTrim m) = str "stop") :
    isCommand m = true
    ∧ (handleIncomingMessage m ai s).result.resultType = ResponseType.command
    ∧ (handleIncomingMessage m ai s).result.riskLevel = Option.none
    ∧ (handleIncomingMessage m ai s).crisisEvents = []
    ∧ (handleIncomingMessage m ai s).session = s
    ∧ (commandTextOf m ∉ commandLabels →
        (handleIncomingMessage m ai s).result.response = unknownCommandMessage) := by
  have hcmd : isCommand m = true := by
    simp only [isCommand, Bool.or_eq_true, beq_iff_eq]
    tauto
  refine ⟨hcmd, ?_, ?_, ?_, ?_, ?_⟩ <;>
    simp only [handleIncomingMessage, hcmd, if_true, reduceCtorEq]
  intro hnot
  simp only [commandLabels, List.mem_cons, List.not_mem_nil, or_false, not_or] at hnot
  obtain ⟨n1, n2, n3, n4, n5, n6, n7, n8, n9, n10,
    n11, n12, n13, n14, n15, n16, n17, n18, n19, n20⟩ := hnot
  simp [handleCommand, n1, n2, n3, n4, n5, n6, n7, n8, n9, n10,
    n11, n12, n13, n14, n15, n16, n17, n18, n19, n20]

/-- Witness for C10: the slash message "/kill myself" contains a crisis
keyword, yet is handled as an (unrecognized) command. -/
theorem c10_commands_bypass_risk_assessment_witness :
    isCommand (str "/kill myself") = true
    ∧ (handleIncomingMessage (str "/kill myself") plainAiReply createNewSession).result.resultType
        = ResponseType.command
    ∧ (handleIncomingMessage (str "/kill myself") plainAiReply createNewSession).result.riskLevel
        = Option.none
    ∧ (handleIncomingMessage (str "/kill myself") plainAiReply createNewSession).crisisEvents = []
    ∧ (handleIncomingMessage (str "/kill myself") plainAiReply createNewSession).session
        = createNewSession
    ∧ (handleIncomingMessage (str "/kill myself") plainAiReply createNewSession).result.response
        = unknownCommandMessage := by
  have h := c10_commands_bypass_risk_assessment (str "/kill myself") plainAiReply
    createNewSession (Or.inl (by decide))
  exact ⟨h.1, h.2.1, h.2.2.1, h.2.2.2.1, h.2.2.2.2.1, h.2.2.2.2.2 (by decide)⟩

end MHBot

